import Mathlib

/-!
Verification development for the user CRUD service (src/server.js, src/User.js).

The service is an Express application over a Mongoose model `User` with four
editable string fields (`name`, `surname`, `email`, `jobTitle`).  The schema
declares `required: true` and `trim: true` on all four fields, and
`unique: true` plus `lowercase: true` on `email`.  The HTTP layer exposes
POST /sign-up, GET /users, GET /users/:id, PUT /users/:id, DELETE /users/:id.

The embedding below models:
 - JavaScript string trimming and lowercasing (on the ASCII range that the
   schema setters act on) as `jsTrim` and `jsToLower` over `List Char`;
 - the express-validator checks (`notEmpty`, `isEmail`) as Boolean predicates;
 - the Mongoose collection as a list of stored records, with the schema
   setters applied on save and on update values, and — per current Mongoose
   defaults — also applied to `findOne` query filter values;
 - Mongoose ObjectId casting: a well-formed id is a 24 character hex string,
   and running a query with a malformed id raises a CastError, which the
   handlers catch in their generic `catch` block (500);
 - the storage layer's verdict at insert time (`SaveOutcome`): the unique
   index can reject a save with a duplicate-key error even though the
   handler's pre-check passed (the documented race), or fail for any other
   reason; both land in the same `catch` block.
-/

namespace Crud

/-- Whitespace test for the model of JavaScript string trimming: space, tab,
carriage return, newline (the ASCII whitespace relevant to the inputs the
schema setters see). -/
def wsChar (c : Char) : Bool :=
  decide (c.toNat = 32 ∨ c.toNat = 9 ∨ c.toNat = 13 ∨ c.toNat = 10)

/-- Remove leading and trailing whitespace from a character list, as the
Mongoose `trim: true` setter (JavaScript `String.prototype.trim`) does. -/
def trimChars (l : List Char) : List Char :=
  List.rdropWhile wsChar (l.dropWhile wsChar)

/-- Model of the Mongoose `trim: true` setter on a string value. -/
def jsTrim (s : String) : String :=
  String.mk (trimChars s.data)

/-- Model of the Mongoose `lowercase: true` setter (JavaScript
`String.prototype.toLowerCase` on the ASCII range). -/
def jsToLower (s : String) : String :=
  String.mk (s.data.map Char.toLower)

/-- The value actually stored for `email`: the schema applies both the
`trim: true` and `lowercase: true` setters (they commute; see
`trim_lower_comm`). -/
def normalizeEmail (s : String) : String :=
  jsToLower (jsTrim s)

/-- Model of express-validator `body(field).notEmpty()`: fails when the field
is absent from the request body or is the empty string.  A whitespace-only
string has positive length and passes. -/
def notEmptyCheck : Option String → Bool
  | none => false
  | some s => s != ""

/-- Split a character list at every dot, keeping empty segments, as
`"a.b".split` does. -/
def splitDots : List Char → List (List Char)
  | [] => [[]]
  | c :: t =>
    let r := splitDots t
    if c = '.' then [] :: r
    else
      match r with
      | h :: rest => (c :: h) :: rest
      | [] => [[c]]

/-- One dot-separated label of an email domain: nonempty, characters
alphanumeric or hyphen. -/
def labelOk (l : List Char) : Bool :=
  !l.isEmpty && l.all (fun c => c.isAlphanum || c == '-')

/-- The local part of an email address: nonempty, no whitespace, no second
at-sign. -/
def localOk (l : List Char) : Bool :=
  !l.isEmpty && l.all (fun c => !wsChar c && c != '@')

/-- Model of express-validator `body(field).isEmail()` (validator.js
`isEmail` with default options, restricted to the unquoted common case):
exactly one at-sign, a nonempty whitespace-free local part, and a domain of
at least two nonempty alphanumeric-or-hyphen labels (default
`require_tld`). -/
def isEmailStr (s : String) : Bool :=
  let l := s.data
  match l.dropWhile (fun c => c != '@') with
  | '@' :: dom =>
      localOk (l.takeWhile (fun c => c != '@')) &&
      dom.all (fun c => c != '@') &&
      decide (2 ≤ (splitDots dom).length) &&
      (splitDots dom).all labelOk
  | _ => false

/-- The `email` validator applied to a possibly absent body field. -/
def isEmailCheck : Option String → Bool
  | none => false
  | some s => isEmailStr s

/-- One entry of the `errors` array in a 400 validation response. -/
structure FieldError where
  field : String
  message : String
deriving Repr, DecidableEq

/-- Error entry produced by `body('name').notEmpty().withMessage(...)`. -/
def nameError : FieldError := ⟨"name", "Name is required."⟩

/-- Error entry produced by `body('surname').notEmpty().withMessage(...)`. -/
def surnameError : FieldError := ⟨"surname", "Surname is required."⟩

/-- Error entry produced by `body('email').isEmail().withMessage(...)`. -/
def emailError : FieldError := ⟨"email", "Valid email is required."⟩

/-- Error entry produced by `body('jobTitle').notEmpty().withMessage(...)`. -/
def jobTitleError : FieldError := ⟨"jobTitle", "Job title is required."⟩

/-- A JSON request body for POST /sign-up and PUT /users/:id; each field may
be absent. -/
structure RequestBody where
  name : Option String
  surname : Option String
  email : Option String
  jobTitle : Option String
deriving Repr, DecidableEq

/-- The validator chain shared by POST /sign-up and PUT /users/:id: the four
checks run independently, in declaration order, and `validationResult`
collects every failure. -/
def validateBody (b : RequestBody) : List FieldError :=
  (if notEmptyCheck b.name then [] else [nameError]) ++
  (if notEmptyCheck b.surname then [] else [surnameError]) ++
  (if isEmailCheck b.email then [] else [emailError]) ++
  (if notEmptyCheck b.jobTitle then [] else [jobTitleError])

/-- One persisted document of the `crud` collection. -/
structure StoredUser where
  id : String
  name : String
  surname : String
  email : String
  jobTitle : String
deriving Repr, DecidableEq

/-- The persisted collection, in storage order. -/
abbrev DbState := List StoredUser

/-- Test for one hexadecimal digit. -/
def hexDigit (c : Char) : Bool :=
  decide ((48 ≤ c.toNat ∧ c.toNat ≤ 57) ∨ (97 ≤ c.toNat ∧ c.toNat ≤ 102) ∨
    (65 ≤ c.toNat ∧ c.toNat ≤ 70))

/-- A string Mongoose can cast to an ObjectId: 24 hexadecimal characters.
Any other `:id` path parameter makes the query reject with a CastError. -/
def validObjectId (s : String) : Bool :=
  s.length == 24 && s.data.all hexDigit

/-- Model of `User.findOne(\x7b email \x7d)`: Mongoose applies the schema
setters (trim, lowercase) to the filter value, then matches the stored field
literally. -/
def findOneByEmail (e : String) (db : DbState) : Option StoredUser :=
  db.find? (fun u => u.email == normalizeEmail e)

/-- Model of `User.findOne(\x7b email, _id: \x7b $ne: id \x7d \x7d)` used by
the update handler: same as `findOneByEmail` but excluding the record whose
id is the path parameter. -/
def findOneByEmailExcludingId (e : String) (idStr : String) (db : DbState) :
    Option StoredUser :=
  db.find? (fun u => u.email == normalizeEmail e && u.id != idStr)

/-- Lookup by id (the match set of `findById` and friends once the id has
been cast successfully). -/
def findByIdOpt (idStr : String) (db : DbState) : Option StoredUser :=
  db.find? (fun u => u.id == idStr)

/-- Build the document `new User(...)` persists: the schema setters trim all
four fields and additionally lowercase the email. -/
def mkStoredUser (idStr n sn e j : String) : StoredUser :=
  ⟨idStr, jsTrim n, jsTrim sn, normalizeEmail e, jsTrim j⟩

/-- Mongoose document validation at save/update time: `required: true` on a
string path rejects the empty string (so a whitespace-only input, trimmed to
empty by the setter, fails and the save throws a ValidationError). -/
def schemaRequiredOk (u : StoredUser) : Bool :=
  u.name != "" && u.surname != "" && u.email != "" && u.jobTitle != ""

/-- The JSON body of a response. -/
inductive ResponseBody
  | record (u : StoredUser)
  | records (us : List StoredUser)
  | message (m : String)
  | validationErrors (es : List FieldError)
  | serverError (m : String) (detail : String)
deriving Repr, DecidableEq

/-- An HTTP response: status code plus JSON body. -/
structure HttpResponse where
  status : Nat
  body : ResponseBody
deriving Repr, DecidableEq

/-- The storage layer's verdict when `save()` runs: success, a duplicate-key
rejection from the unique email index (the race where a concurrent insert
won after this handler's pre-check), or any other storage failure. -/
inductive SaveOutcome
  | ok
  | duplicateKey
  | storageFailure
deriving Repr, DecidableEq

/-- Detail string of a MongoDB duplicate-key error as seen by the catch
block. -/
def dupKeyMessage : String := "E11000 duplicate key error"

/-- Detail string of a Mongoose CastError on a malformed ObjectId. -/
def castErrorMessage (v : String) : String :=
  "Cast to ObjectId failed for value " ++ v

/-- Detail string of a Mongoose ValidationError thrown by `save()` or by
`runValidators: true`. -/
def validationFailedMessage : String := "User validation failed"

/-- POST /sign-up handler: run the validators; on failure respond 400 with
the collected errors.  Otherwise pre-check the email, respond 400 on a
match; otherwise build the document, let `save()` run schema validation and
the insert, and respond 201 with the saved record — any error thrown by
`save()` (ValidationError, duplicate-key, other storage failure) lands in
the generic catch block, which responds 500. -/
def signUp (b : RequestBody) (freshId : String) (so : SaveOutcome)
    (db : DbState) : HttpResponse × DbState :=
  if (validateBody b).isEmpty then
    let n := b.name.getD ""
    let sn := b.surname.getD ""
    let e := b.email.getD ""
    let j := b.jobTitle.getD ""
    match findOneByEmail e db with
    | some _ => (⟨400, .message "User with this email already exists."⟩, db)
    | none =>
      let u := mkStoredUser freshId n sn e j
      if schemaRequiredOk u then
        match so with
        | .ok => (⟨201, .record u⟩, db ++ [u])
        | .duplicateKey =>
            (⟨500, .serverError "Server error" dupKeyMessage⟩, db)
        | .storageFailure =>
            (⟨500, .serverError "Server error" "storage failure"⟩, db)
      else (⟨500, .serverError "Server error" validationFailedMessage⟩, db)
  else (⟨400, .validationErrors (validateBody b)⟩, db)

/-- GET /users handler: respond 200 with every stored record. -/
def getUsers (db : DbState) : HttpResponse :=
  ⟨200, .records db⟩

/-- GET /users/:id handler: a malformed id makes `findById` reject with a
CastError, caught by the generic catch block (500); a missing record gives
404; otherwise 200 with the record. -/
def getUserById (idStr : String) (db : DbState) : HttpResponse :=
  if validObjectId idStr then
    match findByIdOpt idStr db with
    | none => ⟨404, .message "User not found."⟩
    | some u => ⟨200, .record u⟩
  else ⟨500, .serverError "Server error" (castErrorMessage idStr)⟩

/-- PUT /users/:id handler: run the validators (400 with the errors on
failure); then the email pre-check excluding the addressed record runs — a
malformed id makes that query reject with a CastError (500); a match gives
400; then `findByIdAndUpdate` with `runValidators: true` applies the schema
setters to the update values and runs the update validators client-side,
before the store is consulted — so trimmed-to-empty update values reject
with a ValidationError (500) even when no record matches the id; only once
the update values pass validation can the store report no matching record
(404) or apply the setter-processed values, answered 200 with the updated
record. -/
def updateUserById (idStr : String) (b : RequestBody) (db : DbState) :
    HttpResponse × DbState :=
  if (validateBody b).isEmpty then
    let n := b.name.getD ""
    let sn := b.surname.getD ""
    let e := b.email.getD ""
    let j := b.jobTitle.getD ""
    if validObjectId idStr then
      match findOneByEmailExcludingId e idStr db with
      | some _ =>
          (⟨400, .message "Another user with this email already exists."⟩, db)
      | none =>
        let u' : StoredUser :=
          ⟨idStr, jsTrim n, jsTrim sn, normalizeEmail e, jsTrim j⟩
        if schemaRequiredOk u' then
          match findByIdOpt idStr db with
          | none => (⟨404, .message "User not found."⟩, db)
          | some _ =>
            (⟨200, .record u'⟩, db.map (fun v => if v.id == idStr then u' else v))
        else
          (⟨500, .serverError "Server error" validationFailedMessage⟩, db)
    else (⟨500, .serverError "Server error" (castErrorMessage idStr)⟩, db)
  else (⟨400, .validationErrors (validateBody b)⟩, db)

/-- DELETE /users/:id handler: a malformed id makes `findByIdAndDelete`
reject with a CastError (500); a missing record gives 404; otherwise the
record is removed and the handler responds 200 with a confirmation
message. -/
def deleteUserById (idStr : String) (db : DbState) : HttpResponse × DbState :=
  if validObjectId idStr then
    match findByIdOpt idStr db with
    | none => (⟨404, .message "User not found."⟩, db)
    | some _ =>
        (⟨200, .message "User deleted successfully."⟩,
          db.eraseP (fun u => u.id == idStr))
  else (⟨500, .serverError "Server error" (castErrorMessage idStr)⟩, db)

/-- One state-changing operation of the service. -/
inductive Op
  | create (b : RequestBody) (freshId : String) (so : SaveOutcome)
  | update (idStr : String) (b : RequestBody)
  | remove (idStr : String)

/-- Apply one operation to the persisted collection. -/
def applyOp (op : Op) (db : DbState) : HttpResponse × DbState :=
  match op with
  | .create b freshId so => signUp b freshId so db
  | .update idStr b => updateUserById idStr b db
  | .remove idStr => deleteUserById idStr db

/-- Side condition on a create: the system-generated id is fresh. -/
def opFresh (op : Op) (db : DbState) : Prop :=
  match op with
  | .create _ freshId _ => ∀ u ∈ db, u.id ≠ freshId
  | _ => True

/-- Every stored email is a fixed point of the schema setters (true of every
state the service can reach, since both write paths store
`normalizeEmail`). -/
def EmailsNormalized (db : DbState) : Prop :=
  ∀ u ∈ db, u.email = normalizeEmail u.email

/-- Stored ids are pairwise distinct (MongoDB primary key). -/
def IdsDistinct (db : DbState) : Prop :=
  List.Pairwise (fun u v => u.id ≠ v.id) db

/-- The spec's invariant: no two persisted records share the same normalized
email. -/
def NoDupNormalizedEmails (db : DbState) : Prop :=
  List.Pairwise (fun u v => normalizeEmail u.email ≠ normalizeEmail v.email) db

/-- Well-formedness of a reachable collection state. -/
def GoodState (db : DbState) : Prop :=
  EmailsNormalized db ∧ IdsDistinct db ∧ NoDupNormalizedEmails db

/-- A string with neither leading nor trailing whitespace. -/
def NoEdgeWs (s : String) : Prop :=
  s.data.dropWhile wsChar = s.data ∧ List.rdropWhile wsChar s.data = s.data

/-! Concrete data used to exercise the handlers. -/

/-- A well-formed ObjectId string. -/
def oidA : String := "aaaaaaaaaaaaaaaaaaaaaaaa"

/-- A second, distinct well-formed ObjectId string. -/
def oidB : String := "bbbbbbbbbbbbbbbbbbbbbbbb"

/-- A stored record as the schema would have persisted it. -/
def johnStored : StoredUser :=
  ⟨oidA, "John", "Doe", "john@example.com", "Developer"⟩

/-- A one-record collection state. -/
def dbJohn : DbState := [johnStored]

/-- A create request whose email is a case variant of the stored one. -/
def caseVariantBody : RequestBody :=
  ⟨some "Jane", some "Roe", some "John@Example.com", some "Tester"⟩

/-- A fully valid create request matching `johnStored`. -/
def johnBody : RequestBody :=
  ⟨some "John", some "Doe", some "john@example.com", some "Developer"⟩

/-- A valid request with a fresh email (no conflict with `dbJohn`). -/
def janeBody : RequestBody :=
  ⟨some "Jane", some "Roe", some "jane@example.com", some "Tester"⟩

/-- A valid create request whose name carries leading and trailing
whitespace. -/
def paddedNameBody : RequestBody :=
  ⟨some " John ", some "Doe", some "john@example.com", some "Developer"⟩

/-- A request violating three of the four field validators. -/
def badFieldsBody : RequestBody :=
  ⟨some "", some "Doe", some "not-an-email", some ""⟩

/-- A request whose name, surname and jobTitle are whitespace-only. -/
def wsOnlyBody : RequestBody :=
  ⟨some " ", some "\t", some "jane@example.com", some "  "⟩

/-- A valid update request that reuses the stored record's email. -/
def conflictPutBody : RequestBody :=
  ⟨some "Jane", some "Roe", some "john@example.com", some "Tester"⟩

/-! Facts about the modelled string operations. -/

theorem char_toNat_inj {c d : Char} (h : c.toNat = d.toNat) : c = d := by
  apply Char.eq_of_val_eq
  apply UInt32.eq_of_toBitVec_eq
  have h' : c.val.toNat = d.val.toNat := h
  exact BitVec.eq_of_toNat_eq h'

theorem toNat_toLower (c : Char) :
    (Char.toLower c).toNat =
      if 65 ≤ c.toNat ∧ c.toNat ≤ 90 then c.toNat + 32 else c.toNat := by
  unfold Char.toLower
  split
  · next h =>
    rw [if_pos h]
    have hv : (c.toNat + 32).isValidChar := Or.inl (by omega)
    unfold Char.ofNat
    rw [dif_pos hv]
    rfl
  · next h => rw [if_neg h]

theorem toLower_toLower (c : Char) : (c.toLower).toLower = c.toLower := by
  apply char_toNat_inj
  have h1 := toNat_toLower c
  have h2 := toNat_toLower c.toLower
  by_cases h : 65 ≤ c.toNat ∧ c.toNat ≤ 90
  · rw [if_pos h] at h1
    rw [h1] at h2 ⊢
    rw [if_neg (by omega)] at h2
    exact h2
  · rw [if_neg h] at h1
    rw [h1] at h2 ⊢
    rw [if_neg h] at h2
    exact h2

theorem wsChar_toLower (c : Char) : wsChar c.toLower = wsChar c := by
  unfold wsChar
  rw [decide_eq_decide]
  have h1 := toNat_toLower c
  by_cases h : 65 ≤ c.toNat ∧ c.toNat ≤ 90
  · rw [if_pos h] at h1
    rw [h1]
    omega
  · rw [if_neg h] at h1
    rw [h1]

theorem head_not_of_dropWhile_fixed {α : Type} {p : α → Bool} {a : α}
    {t : List α} (h : (a :: t).dropWhile p = a :: t) : p a = false := by
  cases hpa : p a with
  | false => rfl
  | true =>
    exfalso
    rw [List.dropWhile_cons_of_pos hpa] at h
    have hs : t.dropWhile p <:+ t := List.dropWhile_suffix p
    have hlen : (t.dropWhile p).length ≤ t.length := hs.length_le
    rw [h] at hlen
    simp at hlen

theorem dropWhile_rdropWhile {α : Type} (p : α → Bool) (A : List α)
    (h : A.dropWhile p = A) :
    (List.rdropWhile p A).dropWhile p = List.rdropWhile p A := by
  cases A with
  | nil => simp [List.rdropWhile]
  | cons a t =>
    have ha : p a = false := head_not_of_dropWhile_fixed h
    rw [List.rdropWhile, List.reverse_cons, List.dropWhile_append]
    by_cases he : (t.reverse.dropWhile p).isEmpty
    · rw [if_pos he]
      have h1 : List.dropWhile p [a] = [a] :=
        List.dropWhile_cons_of_neg (by simp [ha])
      rw [h1]
      simp [ha]
    · rw [if_neg he, List.reverse_append]
      simp only [List.reverse_cons, List.reverse_nil, List.nil_append,
        List.singleton_append]
      exact List.dropWhile_cons_of_neg (by simp [ha])

theorem trimChars_idem (l : List Char) : trimChars (trimChars l) = trimChars l := by
  unfold trimChars
  rw [dropWhile_rdropWhile wsChar (l.dropWhile wsChar)
    (List.dropWhile_idempotent wsChar l)]
  exact List.rdropWhile_idempotent wsChar _

theorem map_toLower_idem (l : List Char) :
    (l.map Char.toLower).map Char.toLower = l.map Char.toLower := by
  rw [List.map_map]
  exact List.map_congr_left (fun c _ => toLower_toLower c)

theorem dropWhile_ws_map_toLower (l : List Char) :
    (l.map Char.toLower).dropWhile wsChar =
      (l.dropWhile wsChar).map Char.toLower := by
  rw [List.dropWhile_map]
  have h : (wsChar ∘ Char.toLower) = wsChar := funext wsChar_toLower
  rw [h]

theorem trim_lower_comm (l : List Char) :
    trimChars (l.map Char.toLower) = (trimChars l).map Char.toLower := by
  unfold trimChars List.rdropWhile
  rw [dropWhile_ws_map_toLower]
  rw [← List.map_reverse, dropWhile_ws_map_toLower, List.map_reverse]

theorem normalizeEmail_idem (s : String) :
    normalizeEmail (normalizeEmail s) = normalizeEmail s := by
  unfold normalizeEmail jsToLower jsTrim
  apply congrArg String.mk
  show ((trimChars ((trimChars s.data).map Char.toLower)).map Char.toLower) = _
  rw [trim_lower_comm, trimChars_idem, map_toLower_idem]

theorem noEdgeWs_jsTrim (s : String) : NoEdgeWs (jsTrim s) := by
  constructor
  · show (trimChars s.data).dropWhile wsChar = trimChars s.data
    exact dropWhile_rdropWhile wsChar _ (List.dropWhile_idempotent wsChar s.data)
  · show List.rdropWhile wsChar (trimChars s.data) = trimChars s.data
    unfold trimChars
    exact List.rdropWhile_idempotent wsChar _

/-! Unfolding lemmas for the request handlers. -/

theorem signUp_invalid {b : RequestBody} {freshId : String} {so : SaveOutcome}
    {db : DbState} (h : (validateBody b).isEmpty = false) :
    signUp b freshId so db = (⟨400, .validationErrors (validateBody b)⟩, db) := by
  simp [signUp, h]

theorem signUp_conflict {b : RequestBody} {freshId : String} {so : SaveOutcome}
    {db : DbState} {u : StoredUser} (h : (validateBody b).isEmpty = true)
    (h2 : findOneByEmail (b.email.getD "") db = some u) :
    signUp b freshId so db =
      (⟨400, .message "User with this email already exists."⟩, db) := by
  simp [signUp, h, h2]

theorem signUp_schemaFail {b : RequestBody} {freshId : String}
    {so : SaveOutcome} {db : DbState} (h : (validateBody b).isEmpty = true)
    (h2 : findOneByEmail (b.email.getD "") db = none)
    (h3 : schemaRequiredOk (mkStoredUser freshId (b.name.getD "")
      (b.surname.getD "") (b.email.getD "") (b.jobTitle.getD "")) = false) :
    signUp b freshId so db =
      (⟨500, .serverError "Server error" validationFailedMessage⟩, db) := by
  simp [signUp, h, h2, h3]

theorem signUp_saved {b : RequestBody} {freshId : String} {db : DbState}
    (h : (validateBody b).isEmpty = true)
    (h2 : findOneByEmail (b.email.getD "") db = none)
    (h3 : schemaRequiredOk (mkStoredUser freshId (b.name.getD "")
      (b.surname.getD "") (b.email.getD "") (b.jobTitle.getD "")) = true) :
    signUp b freshId SaveOutcome.ok db =
      (⟨201, .record (mkStoredUser freshId (b.name.getD "") (b.surname.getD "")
        (b.email.getD "") (b.jobTitle.getD ""))⟩,
       db ++ [mkStoredUser freshId (b.name.getD "") (b.surname.getD "")
        (b.email.getD "") (b.jobTitle.getD "")]) := by
  simp [signUp, h, h2, h3]

theorem signUp_dupKey {b : RequestBody} {freshId : String} {db : DbState}
    (h : (validateBody b).isEmpty = true)
    (h2 : findOneByEmail (b.email.getD "") db = none)
    (h3 : schemaRequiredOk (mkStoredUser freshId (b.name.getD "")
      (b.surname.getD "") (b.email.getD "") (b.jobTitle.getD "")) = true) :
    signUp b freshId SaveOutcome.duplicateKey db =
      (⟨500, .serverError "Server error" dupKeyMessage⟩, db) := by
  simp [signUp, h, h2, h3]

theorem signUp_storageFail {b : RequestBody} {freshId : String} {db : DbState}
    (h : (validateBody b).isEmpty = true)
    (h2 : findOneByEmail (b.email.getD "") db = none)
    (h3 : schemaRequiredOk (mkStoredUser freshId (b.name.getD "")
      (b.surname.getD "") (b.email.getD "") (b.jobTitle.getD "")) = true) :
    signUp b freshId SaveOutcome.storageFailure db =
      (⟨500, .serverError "Server error" "storage failure"⟩, db) := by
  simp [signUp, h, h2, h3]

theorem getUserById_cast {idStr : String} {db : DbState}
    (h : validObjectId idStr = false) :
    getUserById idStr db =
      ⟨500, .serverError "Server error" (castErrorMessage idStr)⟩ := by
  simp [getUserById, h]

theorem getUserById_notFound {idStr : String} {db : DbState}
    (h : validObjectId idStr = true) (h2 : findByIdOpt idStr db = none) :
    getUserById idStr db = ⟨404, .message "User not found."⟩ := by
  simp [getUserById, h, h2]

theorem getUserById_found {idStr : String} {db : DbState} {u : StoredUser}
    (h : validObjectId idStr = true) (h2 : findByIdOpt idStr db = some u) :
    getUserById idStr db = ⟨200, .record u⟩ := by
  simp [getUserById, h, h2]

theorem update_invalid {idStr : String} {b : RequestBody} {db : DbState}
    (h : (validateBody b).isEmpty = false) :
    updateUserById idStr b db =
      (⟨400, .validationErrors (validateBody b)⟩, db) := by
  simp [updateUserById, h]

theorem update_cast {idStr : String} {b : RequestBody} {db : DbState}
    (h : (validateBody b).isEmpty = true) (h2 : validObjectId idStr = false) :
    updateUserById idStr b db =
      (⟨500, .serverError "Server error" (castErrorMessage idStr)⟩, db) := by
  simp [updateUserById, h, h2]

theorem update_conflict {idStr : String} {b : RequestBody} {db : DbState}
    {u : StoredUser} (h : (validateBody b).isEmpty = true)
    (h2 : validObjectId idStr = true)
    (h3 : findOneByEmailExcludingId (b.email.getD "") idStr db = some u) :
    updateUserById idStr b db =
      (⟨400, .message "Another user with this email already exists."⟩, db) := by
  simp [updateUserById, h, h2, h3]

theorem update_schemaFail {idStr : String} {b : RequestBody} {db : DbState}
    (h : (validateBody b).isEmpty = true)
    (h2 : validObjectId idStr = true)
    (h3 : findOneByEmailExcludingId (b.email.getD "") idStr db = none)
    (h4 : schemaRequiredOk ⟨idStr, jsTrim (b.name.getD ""),
      jsTrim (b.surname.getD ""), normalizeEmail (b.email.getD ""),
      jsTrim (b.jobTitle.getD "")⟩ = false) :
    updateUserById idStr b db =
      (⟨500, .serverError "Server error" validationFailedMessage⟩, db) := by
  simp [updateUserById, h, h2, h3, h4]

theorem update_notFound {idStr : String} {b : RequestBody} {db : DbState}
    (h : (validateBody b).isEmpty = true) (h2 : validObjectId idStr = true)
    (h3 : findOneByEmailExcludingId (b.email.getD "") idStr db = none)
    (h4 : schemaRequiredOk ⟨idStr, jsTrim (b.name.getD ""),
      jsTrim (b.surname.getD ""), normalizeEmail (b.email.getD ""),
      jsTrim (b.jobTitle.getD "")⟩ = true)
    (h5 : findByIdOpt idStr db = none) :
    updateUserById idStr b db = (⟨404, .message "User not found."⟩, db) := by
  simp [updateUserById, h, h2, h3, h4, h5]

theorem update_saved {idStr : String} {b : RequestBody} {db : DbState}
    {u : StoredUser} (h : (validateBody b).isEmpty = true)
    (h2 : validObjectId idStr = true)
    (h3 : findOneByEmailExcludingId (b.email.getD "") idStr db = none)
    (h4 : schemaRequiredOk ⟨idStr, jsTrim (b.name.getD ""),
      jsTrim (b.surname.getD ""), normalizeEmail (b.email.getD ""),
      jsTrim (b.jobTitle.getD "")⟩ = true)
    (h5 : findByIdOpt idStr db = some u) :
    updateUserById idStr b db =
      (⟨200, .record ⟨idStr, jsTrim (b.name.getD ""), jsTrim (b.surname.getD ""),
        normalizeEmail (b.email.getD ""), jsTrim (b.jobTitle.getD "")⟩⟩,
       db.map (fun v => if v.id == idStr then
        ⟨idStr, jsTrim (b.name.getD ""), jsTrim (b.surname.getD ""),
          normalizeEmail (b.email.getD ""), jsTrim (b.jobTitle.getD "")⟩
        else v)) := by
  simp [updateUserById, h, h2, h3, h4, h5]

theorem delete_cast {idStr : String} {db : DbState}
    (h : validObjectId idStr = false) :
    deleteUserById idStr db =
      (⟨500, .serverError "Server error" (castErrorMessage idStr)⟩, db) := by
  simp [deleteUserById, h]

theorem delete_notFound {idStr : String} {db : DbState}
    (h : validObjectId idStr = true) (h2 : findByIdOpt idStr db = none) :
    deleteUserById idStr db = (⟨404, .message "User not found."⟩, db) := by
  simp [deleteUserById, h, h2]

theorem delete_found {idStr : String} {db : DbState} {u : StoredUser}
    (h : validObjectId idStr = true) (h2 : findByIdOpt idStr db = some u) :
    deleteUserById idStr db =
      (⟨200, .message "User deleted successfully."⟩,
       db.eraseP (fun v => v.id == idStr)) := by
  simp [deleteUserById, h, h2]

/-! State-change inversion and invariant preservation. -/

theorem signUp_state_sub (b : RequestBody) (freshId : String)
    (so : SaveOutcome) (db : DbState) :
    (signUp b freshId so db).2 = db ∨
    ((validateBody b).isEmpty = true ∧
     findOneByEmail (b.email.getD "") db = none ∧
     (signUp b freshId so db).2 =
       db ++ [mkStoredUser freshId (b.name.getD "") (b.surname.getD "")
         (b.email.getD "") (b.jobTitle.getD "")]) := by
  cases hv : (validateBody b).isEmpty with
  | false => left; rw [signUp_invalid hv]
  | true =>
    cases hfind : findOneByEmail (b.email.getD "") db with
    | some u => left; rw [signUp_conflict hv hfind]
    | none =>
      cases hds : schemaRequiredOk (mkStoredUser freshId (b.name.getD "")
        (b.surname.getD "") (b.email.getD "") (b.jobTitle.getD "")) with
      | false => left; rw [signUp_schemaFail hv hfind hds]
      | true =>
        cases so with
        | ok => right; exact ⟨rfl, rfl, by rw [signUp_saved hv hfind hds]⟩
        | duplicateKey => left; rw [signUp_dupKey hv hfind hds]
        | storageFailure => left; rw [signUp_storageFail hv hfind hds]

theorem update_state_sub (idStr : String) (b : RequestBody) (db : DbState) :
    (updateUserById idStr b db).2 = db ∨
    (∃ u, findByIdOpt idStr db = some u ∧
      findOneByEmailExcludingId (b.email.getD "") idStr db = none ∧
      (updateUserById idStr b db).2 =
        db.map (fun v => if v.id == idStr then
          (⟨idStr, jsTrim (b.name.getD ""), jsTrim (b.surname.getD ""),
            normalizeEmail (b.email.getD ""), jsTrim (b.jobTitle.getD "")⟩ :
            StoredUser)
          else v)) := by
  cases hv : (validateBody b).isEmpty with
  | false => left; rw [update_invalid hv]
  | true =>
    cases hid : validObjectId idStr with
    | false => left; rw [update_cast hv hid]
    | true =>
      cases hexcl : findOneByEmailExcludingId (b.email.getD "") idStr db with
      | some u => left; rw [update_conflict hv hid hexcl]
      | none =>
        cases hds : schemaRequiredOk (⟨idStr, jsTrim (b.name.getD ""),
          jsTrim (b.surname.getD ""), normalizeEmail (b.email.getD ""),
          jsTrim (b.jobTitle.getD "")⟩ : StoredUser) with
        | false => left; rw [update_schemaFail hv hid hexcl hds]
        | true =>
          cases hfound : findByIdOpt idStr db with
          | none => left; rw [update_notFound hv hid hexcl hds hfound]
          | some u =>
            right
            exact ⟨u, rfl, rfl, by rw [update_saved hv hid hexcl hds hfound]⟩

theorem delete_state_sub (idStr : String) (db : DbState) :
    (deleteUserById idStr db).2 = db ∨
    (deleteUserById idStr db).2 = db.eraseP (fun v => v.id == idStr) := by
  cases hid : validObjectId idStr with
  | false => left; rw [delete_cast hid]
  | true =>
    cases hfound : findByIdOpt idStr db with
    | none => left; rw [delete_notFound hid hfound]
    | some u => right; rw [delete_found hid hfound]

theorem find?_pred {α : Type} {p : α → Bool} {l : List α} {a : α}
    (h : l.find? p = some a) : p a = true :=
  List.find?_some h

theorem goodState_append (db : DbState) (u : StoredUser) (hg : GoodState db)
    (hUnorm : u.email = normalizeEmail u.email)
    (hfresh : ∀ v ∈ db, v.id ≠ u.id)
    (hnew : ∀ v ∈ db, normalizeEmail v.email ≠ normalizeEmail u.email) :
    GoodState (db ++ [u]) := by
  obtain ⟨hnorm, hids, hmails⟩ := hg
  refine ⟨?_, ?_, ?_⟩
  · intro v hv
    rcases List.mem_append.mp hv with h | h
    · exact hnorm v h
    · have hvu : v = u := List.mem_singleton.mp h
      rw [hvu]; exact hUnorm
  · unfold IdsDistinct
    rw [List.pairwise_append]
    refine ⟨hids, List.pairwise_singleton _ _, ?_⟩
    intro a ha c hc
    have hcu : c = u := List.mem_singleton.mp hc
    rw [hcu]; exact hfresh a ha
  · unfold NoDupNormalizedEmails
    rw [List.pairwise_append]
    refine ⟨hmails, List.pairwise_singleton _ _, ?_⟩
    intro a ha c hc
    have hcu : c = u := List.mem_singleton.mp hc
    rw [hcu]; exact hnew a ha

theorem goodState_mapUpdate (db : DbState) (idStr nm sn jt e : String)
    (hg : GoodState db)
    (hexcl : findOneByEmailExcludingId e idStr db = none) :
    GoodState (db.map (fun v => if v.id == idStr then
      (⟨idStr, nm, sn, normalizeEmail e, jt⟩ : StoredUser) else v)) := by
  obtain ⟨hnorm, hids, hmails⟩ := hg
  have hexcl' : ∀ v ∈ db, v.email = normalizeEmail e → v.id = idStr := by
    intro v hv hveq
    unfold findOneByEmailExcludingId at hexcl
    rw [List.find?_eq_none] at hexcl
    have hnv := hexcl v hv
    by_contra hne
    apply hnv
    simp [hveq, hne]
  have hid_f : ∀ v : StoredUser,
      ((if v.id == idStr then
        (⟨idStr, nm, sn, normalizeEmail e, jt⟩ : StoredUser) else v)).id = v.id := by
    intro v
    by_cases hbe : (v.id == idStr) = true
    · rw [if_pos hbe]
      exact (beq_iff_eq.mp hbe).symm
    · rw [if_neg hbe]
  refine ⟨?_, ?_, ?_⟩
  · intro w hw
    rcases List.mem_map.mp hw with ⟨v, hv, rfl⟩
    by_cases hbe : (v.id == idStr) = true
    · rw [if_pos hbe]
      show normalizeEmail e = normalizeEmail (normalizeEmail e)
      exact (normalizeEmail_idem e).symm
    · rw [if_neg hbe]
      exact hnorm v hv
  · unfold IdsDistinct
    rw [List.pairwise_map]
    refine List.Pairwise.imp_of_mem ?_ hids
    intro a c ha hc hR
    rw [hid_f a, hid_f c]
    exact hR
  · unfold NoDupNormalizedEmails
    rw [List.pairwise_map]
    refine List.Pairwise.imp_of_mem ?_ (hids.and hmails)
    intro a c ha hc hR
    obtain ⟨hRid, hRmail⟩ := hR
    by_cases hae : (a.id == idStr) = true
    · by_cases hce : (c.id == idStr) = true
      · exact absurd (by rw [beq_iff_eq.mp hae, beq_iff_eq.mp hce]) hRid
      · rw [if_pos hae, if_neg hce]
        show normalizeEmail (normalizeEmail e) ≠ normalizeEmail c.email
        rw [normalizeEmail_idem]
        intro hcontra
        have hceq : c.email = normalizeEmail e := by
          rw [hnorm c hc, ← hcontra]
        exact hce (beq_iff_eq.mpr (hexcl' c hc hceq))
    · by_cases hce : (c.id == idStr) = true
      · rw [if_neg hae, if_pos hce]
        show normalizeEmail a.email ≠ normalizeEmail (normalizeEmail e)
        rw [normalizeEmail_idem]
        intro hcontra
        have haeq : a.email = normalizeEmail e := by
          rw [hnorm a ha, hcontra]
        exact hae (beq_iff_eq.mpr (hexcl' a ha haeq))
      · rw [if_neg hae, if_neg hce]
        exact hRmail

theorem goodState_eraseP (db : DbState) (p : StoredUser → Bool)
    (hg : GoodState db) : GoodState (db.eraseP p) := by
  obtain ⟨hnorm, hids, hmails⟩ := hg
  have hsub : List.Sublist (db.eraseP p) db := List.eraseP_sublist db
  exact ⟨fun v hv => hnorm v (hsub.subset hv),
    hids.sublist hsub, hmails.sublist hsub⟩

/-! The validator chain, field by field. -/

theorem mem_validateBody (b : RequestBody) :
    (nameError ∈ validateBody b ↔ notEmptyCheck b.name = false) ∧
    (surnameError ∈ validateBody b ↔ notEmptyCheck b.surname = false) ∧
    (emailError ∈ validateBody b ↔ isEmailCheck b.email = false) ∧
    (jobTitleError ∈ validateBody b ↔ notEmptyCheck b.jobTitle = false) ∧
    (validateBody b).length =
      ((if notEmptyCheck b.name then 0 else 1) +
       (if notEmptyCheck b.surname then 0 else 1) +
       (if isEmailCheck b.email then 0 else 1) +
       (if notEmptyCheck b.jobTitle then 0 else 1)) := by
  cases hn : notEmptyCheck b.name <;> cases hs : notEmptyCheck b.surname <;>
    cases he : isEmailCheck b.email <;> cases hj : notEmptyCheck b.jobTitle <;>
    simp [validateBody, hn, hs, he, hj, nameError, surnameError, emailError,
      jobTitleError]

theorem validateBody_isEmpty_false {b : RequestBody}
    (h : validateBody b ≠ []) : (validateBody b).isEmpty = false := by
  cases hh : (validateBody b).isEmpty with
  | false => rfl
  | true => exact absurd (List.isEmpty_iff.mp hh) h

/-! Claim theorems. -/

/-- C1: for every existing user and every create request (POST /sign-up)
whose email equals the existing user's email up to letter case and
leading/trailing whitespace, the response is 400 and no new record is
persisted.  (Either the request fails validation, 400 with the error list,
or it passes and the normalized-email pre-check finds the existing user,
400 with the conflict message; in both cases the state is unchanged.) -/
theorem claim1_duplicate_email_create
    (b : RequestBody) (freshId : String) (so : SaveOutcome) (db : DbState)
    (u : StoredUser) (e : String)
    (hu : u ∈ db) (hnorm : EmailsNormalized db)
    (he : b.email = some e)
    (heq : normalizeEmail e = normalizeEmail u.email) :
    (signUp b freshId so db).1.status = 400 ∧
    (signUp b freshId so db).2 = db := by
  cases hv : (validateBody b).isEmpty with
  | false => rw [signUp_invalid hv]; exact ⟨rfl, rfl⟩
  | true =>
    have hgd : b.email.getD "" = e := by rw [he]; rfl
    cases hfind : findOneByEmail (b.email.getD "") db with
    | some w => rw [signUp_conflict hv hfind]; exact ⟨rfl, rfl⟩
    | none =>
      exfalso
      unfold findOneByEmail at hfind
      rw [List.find?_eq_none] at hfind
      have hp : (u.email == normalizeEmail (b.email.getD "")) = true := by
        rw [hgd, beq_iff_eq, hnorm u hu]
        exact heq.symm
      exact absurd hp (hfind u hu)

/-- Witness for C1 at a concrete duplicate: the stored email is
`john@example.com` and the request carries `John@Example.com`. -/
theorem claim1_witness :
    (signUp caseVariantBody oidB SaveOutcome.ok dbJohn).1.status = 400 ∧
    (signUp caseVariantBody oidB SaveOutcome.ok dbJohn).2 = dbJohn :=
  claim1_duplicate_email_create caseVariantBody oidB SaveOutcome.ok dbJohn
    johnStored "John@Example.com" (by decide)
    (by unfold EmailsNormalized; decide) (by decide) (by decide)

/-- C4: for every create or update request, each of the four field checks
runs independently; the errors array contains exactly one entry per
violating field (all collected, not short-circuited), and whenever any
field fails both handlers respond 400 carrying that full array. -/
theorem claim4_validation_independent_errors
    (b : RequestBody) (db : DbState) (freshId : String) (so : SaveOutcome)
    (idStr : String) :
    (nameError ∈ validateBody b ↔ notEmptyCheck b.name = false) ∧
    (surnameError ∈ validateBody b ↔ notEmptyCheck b.surname = false) ∧
    (emailError ∈ validateBody b ↔ isEmailCheck b.email = false) ∧
    (jobTitleError ∈ validateBody b ↔ notEmptyCheck b.jobTitle = false) ∧
    (validateBody b).length =
      ((if notEmptyCheck b.name then 0 else 1) +
       (if notEmptyCheck b.surname then 0 else 1) +
       (if isEmailCheck b.email then 0 else 1) +
       (if notEmptyCheck b.jobTitle then 0 else 1)) ∧
    (validateBody b ≠ [] →
      (signUp b freshId so db).1 =
        ⟨400, .validationErrors (validateBody b)⟩ ∧
      (updateUserById idStr b db).1 =
        ⟨400, .validationErrors (validateBody b)⟩) := by
  obtain ⟨h1, h2, h3, h4, h5⟩ := mem_validateBody b
  refine ⟨h1, h2, h3, h4, h5, ?_⟩
  intro hne
  have hf : (validateBody b).isEmpty = false := validateBody_isEmpty_false hne
  rw [signUp_invalid hf, update_invalid hf]
  exact ⟨rfl, rfl⟩

/-- Witness for C4: a request with empty name, malformed email and empty
jobTitle gets a 400 carrying the collected error list. -/
theorem claim4_witness :
    (signUp badFieldsBody oidA SaveOutcome.ok dbJohn).1 =
      ⟨400, ResponseBody.validationErrors (validateBody badFieldsBody)⟩ :=
  ((claim4_validation_independent_errors badFieldsBody dbJohn oidA
    SaveOutcome.ok oidB).2.2.2.2.2 (by decide)).1

/-- C8: for every create or update request that fails validation, the
handler returns the 400 validation response and the persisted collection is
unchanged (the early return precedes every database call). -/
theorem claim8_validation_fail_no_db_change
    (b : RequestBody) (db : DbState) (freshId : String) (so : SaveOutcome)
    (idStr : String) (h : validateBody b ≠ []) :
    signUp b freshId so db =
      (⟨400, .validationErrors (validateBody b)⟩, db) ∧
    updateUserById idStr b db =
      (⟨400, .validationErrors (validateBody b)⟩, db) := by
  have hf : (validateBody b).isEmpty = false := validateBody_isEmpty_false h
  exact ⟨signUp_invalid hf, update_invalid hf⟩

/-- Witness for C8 at a concrete invalid request. -/
theorem claim8_witness :
    signUp badFieldsBody oidB SaveOutcome.ok dbJohn =
      (⟨400, ResponseBody.validationErrors (validateBody badFieldsBody)⟩,
        dbJohn) ∧
    updateUserById oidA badFieldsBody dbJohn =
      (⟨400, ResponseBody.validationErrors (validateBody badFieldsBody)⟩,
        dbJohn) :=
  claim8_validation_fail_no_db_change badFieldsBody dbJohn oidB
    SaveOutcome.ok oidA (by decide)

/-- C9: a non-empty whitespace-only string passes `notEmpty` (the check
rejects only the empty string or a missing field), so a whitespace-only
name, surname or jobTitle produces no error entry for that field. -/
theorem claim9_whitespace_only_passes
    (b : RequestBody) (s : String) (hs : s ≠ "")
    (hws : s.data.all wsChar = true) :
    notEmptyCheck (some s) = true ∧
    (b.name = some s → nameError ∉ validateBody b) ∧
    (b.surname = some s → surnameError ∉ validateBody b) ∧
    (b.jobTitle = some s → jobTitleError ∉ validateBody b) := by
  have hne : notEmptyCheck (some s) = true := by
    show (s != "") = true
    simpa using hs
  obtain ⟨h1, h2, h3, h4, h5⟩ := mem_validateBody b
  refine ⟨hne, ?_, ?_, ?_⟩
  · intro hb hmem
    rw [h1, hb, hne] at hmem
    exact Bool.noConfusion hmem
  · intro hb hmem
    rw [h2, hb, hne] at hmem
    exact Bool.noConfusion hmem
  · intro hb hmem
    rw [h4, hb, hne] at hmem
    exact Bool.noConfusion hmem

/-- Witness for C9: the body whose name is a single blank, surname a tab
and jobTitle two blanks yields no validation error for those fields. -/
theorem claim9_witness :
    notEmptyCheck (some " ") = true ∧ nameError ∉ validateBody wsOnlyBody :=
  ⟨(claim9_whitespace_only_passes wsOnlyBody " " (by decide) (by decide)).1,
   (claim9_whitespace_only_passes wsOnlyBody " " (by decide) (by decide)).2.1
     (by decide)⟩

/-- C2 counterexample: a create request that passes validation and the
pre-check (empty collection) but whose save is rejected by the unique index
(duplicate-key race) is answered with the generic 500 server failure, not
with the 400 "already exists" conflict the claim requires. -/
theorem claim2_counterexample :
    (signUp johnBody oidA SaveOutcome.duplicateKey []).1 =
      ⟨500, ResponseBody.serverError "Server error" dupKeyMessage⟩ ∧
    (signUp johnBody oidA SaveOutcome.duplicateKey []).1.status ≠ 400 := by
  constructor
  · decide
  · decide

/-- C2 amended: when the storage layer reports a uniqueness-constraint
violation at save time (after a passed pre-check), the handler's generic
catch block responds 500 with the raw duplicate-key detail — a generic
server failure, not the 400 conflict response — and the collection is
unchanged. -/
theorem claim2_dupkey_race_500
    (b : RequestBody) (freshId : String) (db : DbState)
    (hv : (validateBody b).isEmpty = true)
    (hpre : findOneByEmail (b.email.getD "") db = none)
    (hschema : schemaRequiredOk (mkStoredUser freshId (b.name.getD "")
      (b.surname.getD "") (b.email.getD "") (b.jobTitle.getD "")) = true) :
    (signUp b freshId SaveOutcome.duplicateKey db).1 =
      ⟨500, .serverError "Server error" dupKeyMessage⟩ ∧
    (signUp b freshId SaveOutcome.duplicateKey db).2 = db := by
  rw [signUp_dupKey hv hpre hschema]
  exact ⟨rfl, rfl⟩

/-- Witness for the amended C2 at the concrete race input. -/
theorem claim2_witness :
    (signUp janeBody oidB SaveOutcome.duplicateKey dbJohn).1 =
      ⟨500, ResponseBody.serverError "Server error" dupKeyMessage⟩ ∧
    (signUp janeBody oidB SaveOutcome.duplicateKey dbJohn).2 = dbJohn :=
  claim2_dupkey_race_500 janeBody oidB dbJohn (by decide) (by decide)
    (by decide)

/-- C3 counterexample: a GET /users/:id with the malformed identifier `zzz`
is answered 500 (the CastError lands in the generic catch block), not 404 as
the claim requires. -/
theorem claim3_counterexample :
    (getUserById "zzz" []).status = 500 ∧
    (getUserById "zzz" []).status ≠ 404 := by
  constructor
  · decide
  · decide

/-- C3 amended: a malformed `:id` makes the id cast fail inside the query;
the rejection is caught by the handler's generic catch block, so GET, DELETE
and (when the body passes validation) PUT respond 500 with the cast-error
detail — handled, but a generic failure rather than 404 — and the collection
is unchanged. -/
theorem claim3_malformed_id_500
    (idStr : String) (db : DbState) (b : RequestBody)
    (h : validObjectId idStr = false) :
    getUserById idStr db =
      ⟨500, .serverError "Server error" (castErrorMessage idStr)⟩ ∧
    deleteUserById idStr db =
      (⟨500, .serverError "Server error" (castErrorMessage idStr)⟩, db) ∧
    ((validateBody b).isEmpty = true →
      updateUserById idStr b db =
        (⟨500, .serverError "Server error" (castErrorMessage idStr)⟩, db)) :=
  ⟨getUserById_cast h, delete_cast h, fun hv => update_cast hv h⟩

/-- Witness for the amended C3 at the malformed id `zzz`. -/
theorem claim3_witness :
    getUserById "zzz" dbJohn =
      ⟨500, ResponseBody.serverError "Server error" (castErrorMessage "zzz")⟩ ∧
    deleteUserById "zzz" dbJohn =
      (⟨500, ResponseBody.serverError "Server error" (castErrorMessage "zzz")⟩,
        dbJohn) ∧
    ((validateBody johnBody).isEmpty = true →
      updateUserById "zzz" johnBody dbJohn =
        (⟨500, ResponseBody.serverError "Server error" (castErrorMessage "zzz")⟩,
          dbJohn)) :=
  claim3_malformed_id_500 "zzz" dbJohn johnBody (by decide)

/-- C5 counterexample: a valid create request whose name is " John " (email
valid and unused) is answered 201, but the stored record's name is the
trimmed "John", so the stored editable fields do not exactly match the
request input even though only the email was allowed to change. -/
theorem claim5_counterexample :
    (signUp paddedNameBody oidA SaveOutcome.ok []).1.status = 201 ∧
    (signUp paddedNameBody oidA SaveOutcome.ok []).2 =
      [⟨oidA, "John", "Doe", "john@example.com", "Developer"⟩] ∧
    paddedNameBody.name = some " John " ∧
    (" John " : String) ≠ "John" := by
  refine ⟨by decide, by decide, by decide, by decide⟩

/-- C5 amended: a create request that passes validation, whose email is
unused, and whose trimmed fields are nonempty is answered 201, and the
stored record's fields match the request input with leading/trailing
whitespace trimmed on all four fields and the email additionally
lowercased.  (A request whose name, surname or jobTitle trims to empty
instead fails Mongoose's required validation at save time, 500.) -/
theorem claim5_valid_create_201
    (b : RequestBody) (freshId : String) (db : DbState)
    (hv : (validateBody b).isEmpty = true)
    (hpre : findOneByEmail (b.email.getD "") db = none)
    (hschema : schemaRequiredOk (mkStoredUser freshId (b.name.getD "")
      (b.surname.getD "") (b.email.getD "") (b.jobTitle.getD "")) = true) :
    (signUp b freshId SaveOutcome.ok db).1.status = 201 ∧
    (signUp b freshId SaveOutcome.ok db).2 = db ++
      [⟨freshId, jsTrim (b.name.getD ""), jsTrim (b.surname.getD ""),
        normalizeEmail (b.email.getD ""), jsTrim (b.jobTitle.getD "")⟩] ∧
    (signUp b freshId SaveOutcome.ok db).1.body =
      .record ⟨freshId, jsTrim (b.name.getD ""), jsTrim (b.surname.getD ""),
        normalizeEmail (b.email.getD ""), jsTrim (b.jobTitle.getD "")⟩ := by
  rw [signUp_saved hv hpre hschema]
  exact ⟨rfl, rfl, rfl⟩

/-- Witness for the amended C5: a fresh valid request against `dbJohn`. -/
theorem claim5_witness :
    (signUp janeBody oidB SaveOutcome.ok dbJohn).1.status = 201 ∧
    (signUp janeBody oidB SaveOutcome.ok dbJohn).2 = dbJohn ++
      [⟨oidB, jsTrim "Jane", jsTrim "Roe", normalizeEmail "jane@example.com",
        jsTrim "Tester"⟩] ∧
    (signUp janeBody oidB SaveOutcome.ok dbJohn).1.body =
      ResponseBody.record ⟨oidB, jsTrim "Jane", jsTrim "Roe",
        normalizeEmail "jane@example.com", jsTrim "Tester"⟩ :=
  claim5_valid_create_201 janeBody oidB dbJohn (by decide) (by decide)
    (by decide)

/-- C7 counterexample: a PUT /users/:id with a well-formed id matching no
record but whose (valid) body reuses an existing user's email is answered
400 ("Another user with this email already exists."), not 404 as the claim
requires. -/
theorem claim7_counterexample :
    findByIdOpt oidB dbJohn = none ∧
    validObjectId oidB = true ∧
    (validateBody conflictPutBody).isEmpty = true ∧
    (updateUserById oidB conflictPutBody dbJohn).1.status = 400 ∧
    (updateUserById oidB conflictPutBody dbJohn).1.status ≠ 404 := by
  refine ⟨by decide, by decide, by decide, by decide, by decide⟩

/-- C7 amended: for a well-formed id matching no record, GET and DELETE
respond 404, and PUT with a valid body responds 404 provided (a) its email
does not (after normalization) belong to an existing user — the email
pre-check runs before the id lookup and returns 400 on a conflict — and
(b) the setter-processed update values pass schema validation; a body one
of whose required fields trims to empty (for example a whitespace-only
name, which `notEmpty` admits) makes `runValidators: true` reject with a
ValidationError, answered 500, before the missing id can be observed.  (A
malformed id is answered 500 as well; see C3.) -/
theorem claim7_nonexistent_id_404
    (idStr : String) (db : DbState) (b : RequestBody)
    (hid : validObjectId idStr = true)
    (hnone : findByIdOpt idStr db = none) :
    getUserById idStr db = ⟨404, .message "User not found."⟩ ∧
    deleteUserById idStr db = (⟨404, .message "User not found."⟩, db) ∧
    ((validateBody b).isEmpty = true →
      findOneByEmailExcludingId (b.email.getD "") idStr db = none →
      schemaRequiredOk ⟨idStr, jsTrim (b.name.getD ""),
        jsTrim (b.surname.getD ""), normalizeEmail (b.email.getD ""),
        jsTrim (b.jobTitle.getD "")⟩ = true →
      updateUserById idStr b db = (⟨404, .message "User not found."⟩, db)) ∧
    ((validateBody b).isEmpty = true →
      findOneByEmailExcludingId (b.email.getD "") idStr db = none →
      schemaRequiredOk ⟨idStr, jsTrim (b.name.getD ""),
        jsTrim (b.surname.getD ""), normalizeEmail (b.email.getD ""),
        jsTrim (b.jobTitle.getD "")⟩ = false →
      updateUserById idStr b db =
        (⟨500, .serverError "Server error" validationFailedMessage⟩, db)) :=
  ⟨getUserById_notFound hid hnone, delete_notFound hid hnone,
   fun hv hexcl hreq => update_notFound hv hid hexcl hreq hnone,
   fun hv hexcl hreq => update_schemaFail hv hid hexcl hreq⟩

/-- Witness for the amended C7 at the unused id `oidB`. -/
theorem claim7_witness :
    getUserById oidB dbJohn = ⟨404, ResponseBody.message "User not found."⟩ ∧
    deleteUserById oidB dbJohn =
      (⟨404, ResponseBody.message "User not found."⟩, dbJohn) ∧
    ((validateBody janeBody).isEmpty = true →
      findOneByEmailExcludingId (janeBody.email.getD "") oidB dbJohn = none →
      schemaRequiredOk ⟨oidB, jsTrim (janeBody.name.getD ""),
        jsTrim (janeBody.surname.getD ""),
        normalizeEmail (janeBody.email.getD ""),
        jsTrim (janeBody.jobTitle.getD "")⟩ = true →
      updateUserById oidB janeBody dbJohn =
        (⟨404, ResponseBody.message "User not found."⟩, dbJohn)) ∧
    ((validateBody janeBody).isEmpty = true →
      findOneByEmailExcludingId (janeBody.email.getD "") oidB dbJohn = none →
      schemaRequiredOk ⟨oidB, jsTrim (janeBody.name.getD ""),
        jsTrim (janeBody.surname.getD ""),
        normalizeEmail (janeBody.email.getD ""),
        jsTrim (janeBody.jobTitle.getD "")⟩ = false →
      updateUserById oidB janeBody dbJohn =
        (⟨500, ResponseBody.serverError "Server error"
          validationFailedMessage⟩, dbJohn)) :=
  claim7_nonexistent_id_404 oidB dbJohn janeBody (by decide) (by decide)

/-- C6: no two persisted records share the same normalized email, and every
operation — create, update, delete — preserves this invariant (together with
the auxiliary facts that stored emails are setter-normalized and ids are
distinct, which hold of every reachable state). -/
theorem claim6_email_uniqueness_invariant (op : Op) (db : DbState)
    (hg : GoodState db) (hf : opFresh op db) :
    GoodState (applyOp op db).2 ∧ NoDupNormalizedEmails (applyOp op db).2 := by
  have hgood : GoodState (applyOp op db).2 := by
    cases op with
    | create b freshId so =>
      rcases signUp_state_sub b freshId so db with h | ⟨hv, hfind, h⟩
      · show GoodState (signUp b freshId so db).2
        rw [h]; exact hg
      · show GoodState (signUp b freshId so db).2
        rw [h]
        refine goodState_append db _ hg ?_ ?_ ?_
        · exact (normalizeEmail_idem _).symm
        · intro v hv'
          exact hf v hv'
        · intro v hv'
          unfold findOneByEmail at hfind
          rw [List.find?_eq_none] at hfind
          have hne := hfind v hv'
          show normalizeEmail v.email ≠
            normalizeEmail (normalizeEmail (b.email.getD ""))
          rw [normalizeEmail_idem]
          intro hcontra
          apply hne
          have hvn : v.email = normalizeEmail v.email := hg.1 v hv'
          show (v.email == normalizeEmail (b.email.getD "")) = true
          rw [beq_iff_eq, hvn]
          exact hcontra
    | update idStr b =>
      rcases update_state_sub idStr b db with h | ⟨u, hfound, hexcl, h⟩
      · show GoodState (updateUserById idStr b db).2
        rw [h]; exact hg
      · show GoodState (updateUserById idStr b db).2
        rw [h]
        exact goodState_mapUpdate db idStr (jsTrim (b.name.getD ""))
          (jsTrim (b.surname.getD "")) (jsTrim (b.jobTitle.getD ""))
          (b.email.getD "") hg hexcl
    | remove idStr =>
      rcases delete_state_sub idStr db with h | h
      · show GoodState (deleteUserById idStr db).2
        rw [h]; exact hg
      · show GoodState (deleteUserById idStr db).2
        rw [h]
        exact goodState_eraseP db _ hg
  exact ⟨hgood, hgood.2.2⟩

/-- Witness for C6: inserting a second, fresh-email record into the
one-record state keeps every invariant. -/
theorem claim6_witness :
    GoodState (applyOp (Op.create janeBody oidB SaveOutcome.ok) dbJohn).2 ∧
    NoDupNormalizedEmails
      (applyOp (Op.create janeBody oidB SaveOutcome.ok) dbJohn).2 :=
  claim6_email_uniqueness_invariant (Op.create janeBody oidB SaveOutcome.ok)
    dbJohn
    ⟨by unfold EmailsNormalized; decide, by unfold IdsDistinct; decide,
      by unfold NoDupNormalizedEmails; decide⟩
    (by unfold opFresh; decide)

/-- C10: every record persisted via create or update stores `name`,
`surname` and `jobTitle` with leading and trailing whitespace removed
relative to the request input (the schema's `trim: true` setter applies to
all four editable fields, the email additionally being lowercased), and the
trimmed values indeed carry no edge whitespace. -/
theorem claim10_trimmed_fields
    (b : RequestBody) (freshId idStr : String) (db : DbState) (u : StoredUser)
    (hv : (validateBody b).isEmpty = true) :
    (findOneByEmail (b.email.getD "") db = none →
      schemaRequiredOk (mkStoredUser freshId (b.name.getD "")
        (b.surname.getD "") (b.email.getD "") (b.jobTitle.getD "")) = true →
      (signUp b freshId SaveOutcome.ok db).2 =
        db ++ [⟨freshId, jsTrim (b.name.getD ""), jsTrim (b.surname.getD ""),
          normalizeEmail (b.email.getD ""), jsTrim (b.jobTitle.getD "")⟩]) ∧
    (validObjectId idStr = true →
      findOneByEmailExcludingId (b.email.getD "") idStr db = none →
      findByIdOpt idStr db = some u →
      schemaRequiredOk ⟨u.id, jsTrim (b.name.getD ""),
        jsTrim (b.surname.getD ""), normalizeEmail (b.email.getD ""),
        jsTrim (b.jobTitle.getD "")⟩ = true →
      (updateUserById idStr b db).2 =
        db.map (fun v => if v.id == idStr then
          (⟨u.id, jsTrim (b.name.getD ""), jsTrim (b.surname.getD ""),
            normalizeEmail (b.email.getD ""), jsTrim (b.jobTitle.getD "")⟩ :
            StoredUser) else v)) ∧
    NoEdgeWs (jsTrim (b.name.getD "")) ∧
    NoEdgeWs (jsTrim (b.surname.getD "")) ∧
    NoEdgeWs (jsTrim (b.jobTitle.getD "")) := by
  refine ⟨?_, ?_, noEdgeWs_jsTrim _, noEdgeWs_jsTrim _, noEdgeWs_jsTrim _⟩
  · intro hpre hschema
    rw [signUp_saved hv hpre hschema]
    rfl
  · intro hid hexcl hfound hschema
    have huid : u.id = idStr := by
      unfold findByIdOpt at hfound
      have hpa := find?_pred hfound
      exact beq_iff_eq.mp hpa
    rw [huid] at hschema ⊢
    rw [update_saved hv hid hexcl hschema hfound]

/-- Witness for C10: the padded name " John " is stored as its trimmed
form. -/
theorem claim10_witness :
    (signUp paddedNameBody oidA SaveOutcome.ok []).2 =
      [⟨oidA, jsTrim " John ", jsTrim "Doe", normalizeEmail "john@example.com",
        jsTrim "Developer"⟩] ∧
    jsTrim " John " = "John" :=
  ⟨(claim10_trimmed_fields paddedNameBody oidA oidB [] johnStored
      (by decide)).1 (by decide) (by decide),
   by decide⟩

end Crud
